import Mathlib

/-!
Shallow embedding of the schedule-following engine of the WiFi-Outlet firmware.

Two revisions of the follower are modelled, both present in the repository:
* `followSchedule150` - the v1.5.0 `followSchedule` of `src/main.cpp` (three timed
  cycles, per-edge re-fuzz when an edge fires, suspended values >= 1440 folded back
  at midnight);
* `followSchedule160` - the v1.6.0 `followSchedule` of the later `main.cpp` variant
  (eight cycles: four timed, four sunrise/sunset-relative; all effective times
  recomputed with a shared fuzz draw whenever the schedule changes or at midnight).

Stateful C code (function-static arrays, globals) becomes explicit state passing;
the wall clock, weekday, sunrise/sunset conversions and `random()` draws are oracle
inputs; `setOutletTo` calls become an event trace `List (Nat x Bool)` tagging which
cycle fired which edge.  C `unsigned int` arithmetic is modelled on `Int` with an
explicit `% 2^32` where the source mixes signed and unsigned operands.
-/

/-- MINS_PER_DAY from the source: number of minutes in one day. -/
def MINS_PER_DAY : Nat := 1440

/-- Modulus of C 32-bit unsigned arithmetic. -/
def U32 : Int := 4294967296

/-- DAWN_OF_HISTORY from the source: time_t for August 1st, 2018; `setClock`
considers the system time valid only when `time(nullptr)` exceeds it. -/
def DAWN_OF_HISTORY : Int := 1533081600

/-- cycleType_t from the source: the cycle types supported. -/
inductive cycleType_t
  | daily
  | weekDay
  | weekEnd
deriving DecidableEq, Repr

/-- isWeekday as computed in followSchedule: `tm_wday >= 1 && tm_wday <= 5`. -/
def isWeekday (wday : Nat) : Bool :=
  decide (1 ≤ wday ∧ wday ≤ 5)

/-- Applicability test from followSchedule:
`cycleType == daily || (cycleType == weekDay && isWeekday) || (cycleType == weekEnd && !isWeekday)`. -/
def applicableToday (ct : cycleType_t) (isWd : Bool) : Bool :=
  match ct with
  | .daily => true
  | .weekDay => isWd
  | .weekEnd => !isWd

/-! ## The v1.5.0 follower (src/main.cpp) -/

/-- Schedule-relevant part of the v1.5.0 `eepromData_t` config blob: master enable
flag plus the three parallel per-cycle arrays. -/
structure config150 where
  enabled : Bool
  cycleEnable : Fin 3 → Bool
  cycleType : Fin 3 → cycleType_t
  cycleOnTime : Fin 3 → Nat
  cycleOffTime : Fin 3 → Nat
  cycleFuzz : Fin 3 → Int

/-- Persistent state of the v1.5.0 `followSchedule`: the function-static
`lastMinPastMidnight`, `cycleOn[]`, `cycleOff[]` plus the global `scheduleUpdated`. -/
structure state150 where
  lastMinPastMidnight : Nat
  cycleOn : Fin 3 → Nat
  cycleOff : Fin 3 → Nat
  scheduleUpdated : Bool

/-- The v1.5.0 re-fuzz expression
`(configTime + random(2 * randMax) - randMax + MINS_PER_DAY) % MINS_PER_DAY`,
computed in C 32-bit unsigned arithmetic (hence the explicit `% 2^32`). -/
def fuzzClock150 (base : Nat) (randMax : Int) (draw : Nat) : Nat :=
  ((((base : Int) + (draw : Int) - randMax + (MINS_PER_DAY : Int)) % U32) % (MINS_PER_DAY : Int)).toNat

/-- The v1.5.0 suspension step: a freshly fuzzed time later today is pushed to
tomorrow (`if (v > curMinPastMidnight) v += MINS_PER_DAY`). -/
def suspend150 (v m : Nat) : Nat :=
  if v > m then v + MINS_PER_DAY else v

/-- randMax as computed in the source: `cycleFuzz >= 0 ? cycleFuzz : -cycleFuzz`. -/
def randMaxOf (fuzz : Int) : Int :=
  if fuzz ≥ 0 then fuzz else -fuzz

/-- C conversion of a (possibly signed) arithmetic result to `unsigned int`. -/
def toU32 (x : Int) : Nat :=
  (x % U32).toNat

/-- Body of the per-cycle part of the v1.5.0 follower loop for cycle `c`:
midnight fold of suspended on/off times, edge firing, and the per-edge re-fuzz.
Returns the new `cycleOn[c]`, `cycleOff[c]` and the edge events fired
(`true` = Actuator-On, `false` = Actuator-Off, in source order). -/
def processCycle150 (cfg : config150) (c : Fin 3) (onv offv m : Nat) (isWd : Bool)
    (dOn dOff : Nat) : Nat × Nat × List Bool :=
  if cfg.cycleEnable c && applicableToday (cfg.cycleType c) isWd then
    let on1 := if m = 0 ∧ onv ≥ MINS_PER_DAY then onv - MINS_PER_DAY else onv
    let fireOn := on1 = m
    let randMax := randMaxOf (cfg.cycleFuzz c)
    let on2 :=
      if fireOn ∧ cfg.cycleFuzz c ≠ 0 then
        if cfg.cycleOnTime c < cfg.cycleOffTime c then
          suspend150 (fuzzClock150 (cfg.cycleOnTime c) randMax dOn) m
        else
          toU32 ((cfg.cycleOnTime c : Int) + (offv : Int) - (cfg.cycleOffTime c : Int))
      else on1
    let off1 := if m = 0 ∧ offv ≥ MINS_PER_DAY then offv - MINS_PER_DAY else offv
    let fireOff := off1 = m
    let off2 :=
      if fireOff ∧ cfg.cycleFuzz c ≠ 0 then
        if cfg.cycleOnTime c < cfg.cycleOffTime c then
          toU32 ((cfg.cycleOffTime c : Int) + (on2 : Int) - (cfg.cycleOnTime c : Int))
        else
          suspend150 (fuzzClock150 (cfg.cycleOffTime c) randMax dOff) m
      else off1
    (on2, off2, (if fireOn then [true] else []) ++ (if fireOff then [false] else []))
  else
    (onv, offv, [])

/-- Effective on time entering the v1.5.0 per-cycle loop: reloaded from the config
when the schedule was updated, otherwise the retained static value. -/
def onStart150 (cfg : config150) (s : state150) (c : Fin 3) : Nat :=
  if s.scheduleUpdated then cfg.cycleOnTime c else s.cycleOn c

/-- Effective off time entering the v1.5.0 per-cycle loop. -/
def offStart150 (cfg : config150) (s : state150) (c : Fin 3) : Nat :=
  if s.scheduleUpdated then cfg.cycleOffTime c else s.cycleOff c

/-- One evaluation of the v1.5.0 `followSchedule` at minute-of-day `m` and weekday
`wday`, with `draws c` the values the two potential `random(2 * randMax)` calls of
cycle `c` would return.  Result: the new static state and the trace of
`setOutletTo` calls, tagged `(cycle index, true for OUTLET_ON)`. -/
def followSchedule150 (cfg : config150) (s : state150) (m wday : Nat)
    (draws : Fin 3 → Nat × Nat) : state150 × List (Nat × Bool) :=
  if !cfg.enabled || (decide (m = s.lastMinPastMidnight) && !s.scheduleUpdated) then
    (s, [])
  else
    let isWd := isWeekday wday
    let res := fun c : Fin 3 =>
      processCycle150 cfg c (onStart150 cfg s c) (offStart150 cfg s c) m isWd
        (draws c).1 (draws c).2
    ({ lastMinPastMidnight := m,
       cycleOn := fun c => (res c).1,
       cycleOff := fun c => (res c).2.1,
       scheduleUpdated := false },
     (List.finRange 3).flatMap (fun c => ((res c).2.2).map (fun b => (c.val, b))))

/-! ## The v1.6.0 follower (the eight-cycle main.cpp variant) -/

/-- Schedule-relevant part of the v1.6.0 `eepromData_t` config blob.  Cycles 0-3
are timed (N_TIMED_CYCLES = 4); cycles 4-7 are sun cycles, with per-sun-cycle
fixed time `sunTime` and sunrise/sunset offset `sunDelta`. -/
structure config160 where
  enabled : Bool
  cycleEnable : Fin 8 → Bool
  cycleType : Fin 8 → cycleType_t
  cycleOnTime : Fin 4 → Nat
  cycleOffTime : Fin 4 → Nat
  sunTime : Fin 4 → Nat
  sunDelta : Fin 4 → Int
  cycleFuzz : Fin 8 → Int

/-- Persistent state of the v1.6.0 `followSchedule`: the function-static
`lastMinPastMidnight`, `cycleOn[]`, `cycleOff[]` plus the globals `sunrise`,
`sunset` and `scheduleUpdated`. -/
structure state160 where
  lastMinPastMidnight : Nat
  cycleOn : Fin 8 → Nat
  cycleOff : Fin 8 → Nat
  sunrise : Nat
  sunset : Nat
  scheduleUpdated : Bool

/-- Index of a sun cycle into the `sunTime` / `sunDelta` arrays: `c - N_TIMED_CYCLES`. -/
def sunIx (c : Fin 8) : Fin 4 :=
  ⟨(c.val - 4) % 4, Nat.mod_lt _ (by norm_num)⟩

/-- The v1.6.0 off time of a sunrise cycle:
`(sunrise + (MINS_PER_DAY + sunDelta)) % MINS_PER_DAY` in C unsigned arithmetic. -/
def sunOffAfterSunrise (sunR : Nat) (delta : Int) : Nat :=
  ((((sunR : Int) + ((MINS_PER_DAY : Int) + delta)) % U32) % (MINS_PER_DAY : Int)).toNat

/-- The v1.6.0 on time of a sunset cycle:
`(sunset + (MINS_PER_DAY - sunDelta)) % MINS_PER_DAY` in C unsigned arithmetic. -/
def sunOnBeforeSunset (sunS : Nat) (delta : Int) : Nat :=
  ((((sunS : Int) + ((MINS_PER_DAY : Int) - delta)) % U32) % (MINS_PER_DAY : Int)).toNat

/-- Base (pre-fuzz) resolved on/off pair for cycle `c` in the v1.6.0 recompute
block: timed cycles use their configured times; even sun cycles turn on at the
fixed time and off after sunrise; odd sun cycles turn on before sunset and off at
the fixed time. -/
def resolveBase160 (cfg : config160) (sunR sunS : Nat) (c : Fin 8) : Nat × Nat :=
  if h : c.val < 4 then
    (cfg.cycleOnTime ⟨c.val, h⟩, cfg.cycleOffTime ⟨c.val, h⟩)
  else if c.val % 2 = 0 then
    (cfg.sunTime (sunIx c), sunOffAfterSunrise sunR (cfg.sunDelta (sunIx c)))
  else
    (sunOnBeforeSunset sunS (cfg.sunDelta (sunIx c)), cfg.sunTime (sunIx c))

/-- The v1.6.0 fuzz application to one edge: with `fuzzMins = draw - randMax`,
`fuzzyTime = fuzzMins + base` replaces the base time only when it is positive. -/
def fuzz160 (fuzz : Int) (draw : Nat) (base : Nat) : Nat :=
  let randMax := randMaxOf fuzz
  let fuzzMins : Int := (draw : Int) - randMax
  let fuzzyTime : Int := fuzzMins + (base : Int)
  if fuzzyTime > 0 then fuzzyTime.toNat else base

/-- Resolved on/off pair for cycle `c` in the v1.6.0 recompute block, the single
`random(2 * randMax)` draw of the cycle applied to both edges when fuzz is
configured. -/
def resolveCycle160 (cfg : config160) (sunR sunS : Nat) (draw : Nat) (c : Fin 8) :
    Nat × Nat :=
  let base := resolveBase160 cfg sunR sunS c
  if cfg.cycleFuzz c ≠ 0 then
    (fuzz160 (cfg.cycleFuzz c) draw base.1, fuzz160 (cfg.cycleFuzz c) draw base.2)
  else base

/-- Effective on time used by the v1.6.0 fire loop: freshly resolved when the
schedule was updated or it is midnight, otherwise the retained static value. -/
def onUsed160 (cfg : config160) (s : state160) (m : Nat) (sunR sunS : Nat)
    (draws : Fin 8 → Nat) (c : Fin 8) : Nat :=
  if s.scheduleUpdated ∨ m = 0 then (resolveCycle160 cfg sunR sunS (draws c) c).1
  else s.cycleOn c

/-- Effective off time used by the v1.6.0 fire loop. -/
def offUsed160 (cfg : config160) (s : state160) (m : Nat) (sunR sunS : Nat)
    (draws : Fin 8 → Nat) (c : Fin 8) : Nat :=
  if s.scheduleUpdated ∨ m = 0 then (resolveCycle160 cfg sunR sunS (draws c) c).2
  else s.cycleOff c

/-- One evaluation of the v1.6.0 `followSchedule` at minute-of-day `m` and weekday
`wday`.  `sunR`/`sunS` are the minute-of-day values today's `ObsSite` sunrise and
sunset convert to (consulted only in the recompute block) and `draws c` is the
value cycle c's potential `random(2 * randMax)` call would return.  A cycle fires
only if enabled, not inert (`cycleOn != cycleOff`) and applicable today; firing
does not modify the resolved times. -/
def followSchedule160 (cfg : config160) (s : state160) (m wday : Nat)
    (sunR sunS : Nat) (draws : Fin 8 → Nat) : state160 × List (Nat × Bool) :=
  if !cfg.enabled || (decide (m = s.lastMinPastMidnight) && !s.scheduleUpdated) then
    (s, [])
  else
    let recompute := s.scheduleUpdated ∨ m = 0
    let onA := onUsed160 cfg s m sunR sunS draws
    let offA := offUsed160 cfg s m sunR sunS draws
    let isWd := isWeekday wday
    ({ lastMinPastMidnight := m,
       cycleOn := onA,
       cycleOff := offA,
       sunrise := if recompute then sunR else s.sunrise,
       sunset := if recompute then sunS else s.sunset,
       scheduleUpdated := false },
     (List.finRange 8).flatMap (fun c =>
       if cfg.cycleEnable c && decide (onA c ≠ offA c) &&
           applicableToday (cfg.cycleType c) isWd then
         (if onA c = m then [(c.val, true)] else []) ++
         (if offA c = m then [(c.val, false)] else [])
       else []))

/-! ## Wall clock reading and the loop gating (v1.5.0) -/

/-- A wall-clock reading as `followSchedule` consumes it: the raw `time(nullptr)`
seconds plus the `localtime` fields the follower actually uses (`tm_hour * 60 +
tm_min` and `tm_wday`).  The `localtime` conversion itself is the C library's. -/
structure ClockReading where
  secs : Int
  minuteOfDay : Nat
  wday : Nat

/-- Validity criterion the firmware itself uses for the wall clock (in `setClock`):
`nowSecs > DAWN_OF_HISTORY`. -/
def timeIsValid (cr : ClockReading) : Bool :=
  decide (cr.secs > DAWN_OF_HISTORY)

/-- The v1.5.0 `followSchedule` as actually entered from the top: it reads the
clock and proceeds; no validity test of the reading is performed anywhere in its
body. -/
def followScheduleClock150 (cfg : config150) (s : state150) (cr : ClockReading)
    (draws : Fin 3 → Nat × Nat) : state150 × List (Nat × Bool) :=
  followSchedule150 cfg s cr.minuteOfDay cr.wday draws

/-- The follower-invocation slice of the v1.5.0 `loop()`: `followSchedule()` runs
only when `running` is true (set at boot, only after a successful NTP sync) and
the WiFi is connected; otherwise the follower is never entered. -/
def loopFollowerStep150 (running wifiConnected : Bool) (cfg : config150)
    (s : state150) (cr : ClockReading) (draws : Fin 3 → Nat × Nat) :
    state150 × List (Nat × Bool) :=
  if running && wifiConnected then followScheduleClock150 cfg s cr draws
  else (s, [])

/-! ## The ObsSite sunrise/sunset calculator (C9)

The numeric kernel of `ObsSite::calc` is double-precision trigonometry; it is a
pure function of the cached integer julian day and the (fixed) site, so it is
abstracted here as a parameter `compute : Int -> Int x Int x Int` giving
(sunriseTime, transitTime, sunsetTime), and the julian-day derivation from
(year, yday) as a parameter `jday`.  What is modelled concretely is the
memoization skeleton of the source. -/

/-- The mutable members of an `ObsSite` object.  The constructor does not
initialize `julianDay` (or the three cached times): a fresh object starts with
arbitrary values. -/
structure ObsSiteState where
  julianDay : Int
  sunriseTime : Int
  transitTime : Int
  sunsetTime : Int

/-- ObsSite::calc - if the requested day's julian day equals the cached one,
return at once; otherwise recompute and fill the cache. -/
def ObsSite_calc (jday : Int → Int → Int) (compute : Int → Int × Int × Int)
    (s : ObsSiteState) (year yday : Int) : ObsSiteState :=
  let jDay := jday year yday
  if jDay = s.julianDay then s
  else
    { julianDay := jDay,
      sunriseTime := (compute jDay).1,
      transitTime := (compute jDay).2.1,
      sunsetTime := (compute jDay).2.2 }

/-- ObsSite::getSunrise - `calc(year, yday); return sunriseTime;`. -/
def ObsSite_getSunrise (jday : Int → Int → Int) (compute : Int → Int × Int × Int)
    (s : ObsSiteState) (year yday : Int) : ObsSiteState × Int :=
  let s1 := ObsSite_calc jday compute s year yday
  (s1, s1.sunriseTime)

/-- ObsSite::getSolarNoon - `calc(year, yday); return transitTime;`. -/
def ObsSite_getSolarNoon (jday : Int → Int → Int) (compute : Int → Int × Int × Int)
    (s : ObsSiteState) (year yday : Int) : ObsSiteState × Int :=
  let s1 := ObsSite_calc jday compute s year yday
  (s1, s1.transitTime)

/-- ObsSite::getSunset - `calc(year, yday); return sunsetTime;`. -/
def ObsSite_getSunset (jday : Int → Int → Int) (compute : Int → Int × Int × Int)
    (s : ObsSiteState) (year yday : Int) : ObsSiteState × Int :=
  let s1 := ObsSite_calc jday compute s year yday
  (s1, s1.sunsetTime)

/-! ## The v1.5.0 schedule-update form handler (handlePost, SCHED_UPDATE_QUERY) -/

/-- formDataName_t from the v1.5.0 source: the fixed, enumerated form field names
of the schedule-edit submission, in declaration order. -/
inductive formDataName_t
  | fdS0en | fdS1en | fdS2en
  | fdS0ty | fdS1ty | fdS2ty
  | fdS0on | fdS1on | fdS2on
  | fdS0of | fdS1of | fdS2of
  | fdS0fz | fdS1fz | fdS2fz
deriving DecidableEq, Repr

/-- Iteration order of the handlePost field loop (`for i < _formDataNameSize_`). -/
def allFormDataNames : List formDataName_t :=
  [.fdS0en, .fdS1en, .fdS2en, .fdS0ty, .fdS1ty, .fdS2ty, .fdS0on, .fdS1on, .fdS2on,
   .fdS0of, .fdS1of, .fdS2of, .fdS0fz, .fdS1fz, .fdS2fz]

/-- Arduino String::substring(left, right): the characters in [left, right),
right clamped to the string length. -/
def arduinoSubstring (s : String) (left right : Nat) : String :=
  String.mk ((s.toList.drop left).take (right - left))

/-- Digit-accumulation part of atol: consume leading decimal digits. -/
def atolDigits : List Char → Int → Int
  | c :: rest, acc =>
    if c.isDigit then atolDigits rest (acc * 10 + ((c.toNat : Int) - 48)) else acc
  | [], acc => acc

/-- Arduino String::toInt (atol semantics): skip leading whitespace, optional
sign, then leading digits; 0 when there are none. -/
def arduinoToInt (s : String) : Int :=
  match s.toList.dropWhile (fun c => c.isWhitespace) with
  | '-' :: rest => - atolDigits rest 0
  | '+' :: rest => atolDigits rest 0
  | l => atolDigits l 0

/-- toMinsPastMidnight from the source:
`(hhcmm.substring(0, 2).toInt() * 60) + hhcmm.substring(3, 5).toInt()`, the signed
result converted to the unsigned `minPastMidnight_t`.  No validity checking. -/
def toMinsPastMidnight (hhcmm : String) : Nat :=
  toU32 (arduinoToInt (arduinoSubstring hhcmm 0 2) * 60 +
    arduinoToInt (arduinoSubstring hhcmm 3 5))

/-- One arm of the handlePost switch: apply form field `i` with (non-empty)
value `v` to the configuration. -/
def parseCycleType (dy wd : String) (v : String) : cycleType_t :=
  if v = dy then .daily else if v = wd then .weekDay else .weekEnd

def applyFormField (cfg : config150) (i : formDataName_t) (v : String) : config150 :=
  match i with
  | .fdS0en => { cfg with cycleEnable := Function.update cfg.cycleEnable 0 (decide (v = "on")) }
  | .fdS1en => { cfg with cycleEnable := Function.update cfg.cycleEnable 1 (decide (v = "on")) }
  | .fdS2en => { cfg with cycleEnable := Function.update cfg.cycleEnable 2 (decide (v = "on")) }
  | .fdS0ty => { cfg with cycleType := Function.update cfg.cycleType 0 (parseCycleType "s0dy" "s0wd" v) }
  | .fdS1ty => { cfg with cycleType := Function.update cfg.cycleType 1 (parseCycleType "s1dy" "s1wd" v) }
  | .fdS2ty => { cfg with cycleType := Function.update cfg.cycleType 2 (parseCycleType "s2dy" "s2wd" v) }
  | .fdS0on => { cfg with cycleOnTime := Function.update cfg.cycleOnTime 0 (toMinsPastMidnight v) }
  | .fdS1on => { cfg with cycleOnTime := Function.update cfg.cycleOnTime 1 (toMinsPastMidnight v) }
  | .fdS2on => { cfg with cycleOnTime := Function.update cfg.cycleOnTime 2 (toMinsPastMidnight v) }
  | .fdS0of => { cfg with cycleOffTime := Function.update cfg.cycleOffTime 0 (toMinsPastMidnight v) }
  | .fdS1of => { cfg with cycleOffTime := Function.update cfg.cycleOffTime 1 (toMinsPastMidnight v) }
  | .fdS2of => { cfg with cycleOffTime := Function.update cfg.cycleOffTime 2 (toMinsPastMidnight v) }
  | .fdS0fz => { cfg with cycleFuzz := Function.update cfg.cycleFuzz 0 (arduinoToInt v) }
  | .fdS1fz => { cfg with cycleFuzz := Function.update cfg.cycleFuzz 1 (arduinoToInt v) }
  | .fdS2fz => { cfg with cycleFuzz := Function.update cfg.cycleFuzz 2 (arduinoToInt v) }

/-- The SCHED_UPDATE_QUERY branch of the v1.5.0 handlePost: first reset all three
cycle-enable flags to false (a checkbox is only sent in POST data when on), then
walk every form field in order and overlay those whose submitted value is
non-empty (`getFormDatum` returns the empty string for an absent field). -/
def handlePostSchedUpdate150 (cfg : config150) (form : formDataName_t → String) :
    config150 :=
  allFormDataNames.foldl
    (fun acc i => if (form i).length ≠ 0 then applyFormField acc i (form i) else acc)
    { cfg with cycleEnable := fun _ => false }

/-! ## Claim theorems -/

/-- C4: whenever the master `config.enabled` flag is false, an evaluation of the
schedule follower (either revision) is a no-op: state unchanged and no Actuator
calls, regardless of cycle configuration and current time. -/
theorem schedule_disabled_noop
    (cfg : config150) (s : state150) (m wday : Nat) (draws : Fin 3 → Nat × Nat)
    (cfg2 : config160) (s2 : state160) (m2 wday2 sunR sunS : Nat)
    (draws2 : Fin 8 → Nat)
    (h1 : cfg.enabled = false) (h2 : cfg2.enabled = false) :
    followSchedule150 cfg s m wday draws = (s, []) ∧
    followSchedule160 cfg2 s2 m2 wday2 sunR sunS draws2 = (s2, []) := by
  constructor
  · simp [followSchedule150, h1]
  · simp [followSchedule160, h2]

/-- Concrete configurations and states used by the witnesses below. -/
def cfg150offEx : config150 :=
  { enabled := false, cycleEnable := fun _ => true, cycleType := fun _ => .daily,
    cycleOnTime := fun _ => 480, cycleOffTime := fun _ => 780, cycleFuzz := fun _ => 0 }

def st150Ex : state150 :=
  { lastMinPastMidnight := 479, cycleOn := fun _ => 480, cycleOff := fun _ => 780,
    scheduleUpdated := false }

def cfg160offEx : config160 :=
  { enabled := false, cycleEnable := fun _ => true, cycleType := fun _ => .daily,
    cycleOnTime := fun _ => 480, cycleOffTime := fun _ => 780,
    sunTime := fun _ => 360, sunDelta := fun _ => 15, cycleFuzz := fun _ => 0 }

def st160Ex : state160 :=
  { lastMinPastMidnight := 479, cycleOn := fun _ => 480, cycleOff := fun _ => 780,
    sunrise := 384, sunset := 1150, scheduleUpdated := false }

/-- Witness for C4 at a concrete input. -/
theorem schedule_disabled_noop_witness :
    cfg150offEx.enabled = false ∧ cfg160offEx.enabled = false ∧
    followSchedule150 cfg150offEx st150Ex 480 3 (fun _ => (0, 0)) = (st150Ex, []) ∧
    followSchedule160 cfg160offEx st160Ex 480 3 384 1150 (fun _ => 0) =
      (st160Ex, []) := by
  refine ⟨rfl, rfl, ?_, ?_⟩
  · exact (schedule_disabled_noop cfg150offEx st150Ex 480 3 (fun _ => (0, 0))
      cfg160offEx st160Ex 480 3 384 1150 (fun _ => 0) rfl rfl).1
  · exact (schedule_disabled_noop cfg150offEx st150Ex 480 3 (fun _ => (0, 0))
      cfg160offEx st160Ex 480 3 384 1150 (fun _ => 0) rfl rfl).2

/-- Helper: the v1.5.0 follower returns unchanged when its short-circuit guard holds. -/
theorem fs150_guard_true {cfg : config150} {s : state150} {m wday : Nat}
    {d : Fin 3 → Nat × Nat}
    (h : (!cfg.enabled || (decide (m = s.lastMinPastMidnight) && !s.scheduleUpdated)) = true) :
    followSchedule150 cfg s m wday d = (s, []) := by
  rw [followSchedule150, if_pos h]

/-- Helper: when the v1.5.0 guard fails, the evaluation records the current minute
and clears the schedule-updated flag. -/
theorem fs150_guard_false_post (cfg : config150) (s : state150) (m wday : Nat)
    (d : Fin 3 → Nat × Nat)
    (h : ¬ (!cfg.enabled || (decide (m = s.lastMinPastMidnight) && !s.scheduleUpdated)) = true) :
    (followSchedule150 cfg s m wday d).1.lastMinPastMidnight = m ∧
    (followSchedule150 cfg s m wday d).1.scheduleUpdated = false := by
  rw [followSchedule150, if_neg h]
  exact ⟨rfl, rfl⟩

/-- Helper: the v1.6.0 follower returns unchanged when its short-circuit guard holds. -/
theorem fs160_guard_true {cfg : config160} {s : state160} {m wday sunR sunS : Nat}
    {d : Fin 8 → Nat}
    (h : (!cfg.enabled || (decide (m = s.lastMinPastMidnight) && !s.scheduleUpdated)) = true) :
    followSchedule160 cfg s m wday sunR sunS d = (s, []) := by
  rw [followSchedule160, if_pos h]

/-- Helper: when the v1.6.0 guard fails, the evaluation records the current minute
and clears the schedule-updated flag. -/
theorem fs160_guard_false_post (cfg : config160) (s : state160) (m wday sunR sunS : Nat)
    (d : Fin 8 → Nat)
    (h : ¬ (!cfg.enabled || (decide (m = s.lastMinPastMidnight) && !s.scheduleUpdated)) = true) :
    (followSchedule160 cfg s m wday sunR sunS d).1.lastMinPastMidnight = m ∧
    (followSchedule160 cfg s m wday sunR sunS d).1.scheduleUpdated = false := by
  rw [followSchedule160, if_neg h]
  exact ⟨rfl, rfl⟩

/-- C2: with a fixed schedule, a second follower evaluation at the same
minute-of-day short-circuits: it changes nothing and makes no further Actuator
calls, in both revisions (each due transition is therefore fired exactly once,
by the first evaluation). -/
theorem second_eval_same_minute_noop
    (cfg : config150) (s : state150) (m wday : Nat) (d1 d2 : Fin 3 → Nat × Nat)
    (cfg2 : config160) (s2 : state160) (m2 wday2 sunR sunS : Nat)
    (e1 e2 : Fin 8 → Nat) :
    followSchedule150 cfg (followSchedule150 cfg s m wday d1).1 m wday d2 =
      ((followSchedule150 cfg s m wday d1).1, []) ∧
    followSchedule160 cfg2 (followSchedule160 cfg2 s2 m2 wday2 sunR sunS e1).1
        m2 wday2 sunR sunS e2 =
      ((followSchedule160 cfg2 s2 m2 wday2 sunR sunS e1).1, []) := by
  constructor
  · by_cases hG : (!cfg.enabled ||
        (decide (m = s.lastMinPastMidnight) && !s.scheduleUpdated)) = true
    · rw [fs150_guard_true hG]
      exact fs150_guard_true hG
    · obtain ⟨hL, hU⟩ := fs150_guard_false_post cfg s m wday d1 hG
      apply fs150_guard_true
      rw [hL, hU]
      simp
  · by_cases hG : (!cfg2.enabled ||
        (decide (m2 = s2.lastMinPastMidnight) && !s2.scheduleUpdated)) = true
    · rw [fs160_guard_true hG]
      exact fs160_guard_true hG
    · obtain ⟨hL, hU⟩ := fs160_guard_false_post cfg2 s2 m2 wday2 sunR sunS e1 hG
      apply fs160_guard_true
      rw [hL, hU]
      simp

/-- C1 (amended): in the v1.6.0 follower, a cycle whose resolved on minute equals
its resolved off minute is inert - an evaluation makes no Actuator-On and no
Actuator-Off call on behalf of that cycle, at any current minute-of-day. -/
theorem inert_cycle_never_fires160
    (cfg : config160) (s : state160) (m wday sunR sunS : Nat) (draws : Fin 8 → Nat)
    (c : Fin 8) (b : Bool)
    (h : (followSchedule160 cfg s m wday sunR sunS draws).1.cycleOn c =
      (followSchedule160 cfg s m wday sunR sunS draws).1.cycleOff c) :
    (c.val, b) ∉ (followSchedule160 cfg s m wday sunR sunS draws).2 := by
  by_cases hG : (!cfg.enabled ||
      (decide (m = s.lastMinPastMidnight) && !s.scheduleUpdated)) = true
  · rw [fs160_guard_true hG]
    simp
  · rw [followSchedule160, if_neg hG] at h ⊢
    have h' : onUsed160 cfg s m sunR sunS draws c = offUsed160 cfg s m sunR sunS draws c := h
    simp only [List.mem_flatMap, List.mem_finRange, true_and, not_exists]
    intro c'
    by_cases hcc : c' = c
    · subst hcc
      simp [h']
    · have hv : c.val ≠ c'.val := fun hv => hcc (Fin.ext hv.symm)
      simp [hv]

/-- Concrete v1.6.0 configuration with an inert cycle 0 (on time = off time). -/
def cfg160inert : config160 :=
  { enabled := true, cycleEnable := fun _ => true, cycleType := fun _ => .daily,
    cycleOnTime := fun _ => 300, cycleOffTime := fun _ => 300,
    sunTime := fun _ => 300, sunDelta := fun _ => 0, cycleFuzz := fun _ => 0 }

def st160inert : state160 :=
  { lastMinPastMidnight := 299, cycleOn := fun _ => 300, cycleOff := fun _ => 300,
    sunrise := 384, sunset := 1150, scheduleUpdated := false }

/-- Witness for C1 at a concrete input: the inert cycle 0 fires neither edge even
at the shared minute 300. -/
theorem inert_cycle_never_fires160_witness :
    (followSchedule160 cfg160inert st160inert 300 3 384 1150 (fun _ => 0)).1.cycleOn 0 =
      (followSchedule160 cfg160inert st160inert 300 3 384 1150 (fun _ => 0)).1.cycleOff 0 ∧
    ((0 : Fin 8).val, true) ∉
      (followSchedule160 cfg160inert st160inert 300 3 384 1150 (fun _ => 0)).2 := by
  have h : (followSchedule160 cfg160inert st160inert 300 3 384 1150
      (fun _ => 0)).1.cycleOn 0 =
      (followSchedule160 cfg160inert st160inert 300 3 384 1150 (fun _ => 0)).1.cycleOff 0 := by
    decide
  exact ⟨h, inert_cycle_never_fires160 cfg160inert st160inert 300 3 384 1150
    (fun _ => 0) 0 true h⟩

/-- Concrete v1.5.0 configuration whose cycle 0 has equal resolved on and off
minutes (both 300), schedule enabled. -/
def cfg150inert : config150 :=
  { enabled := true, cycleEnable := fun _ => true, cycleType := fun _ => .daily,
    cycleOnTime := fun _ => 300, cycleOffTime := fun _ => 300, cycleFuzz := fun _ => 0 }

def st150inert : state150 :=
  { lastMinPastMidnight := 299, cycleOn := fun _ => 300, cycleOff := fun _ => 300,
    scheduleUpdated := false }

/-- Counterexample to C1 as stated: the v1.5.0 follower has no inertness guard, so
a cycle whose resolved on minute equals its resolved off minute (300 = 300) fires
BOTH edges when minute 300 arrives - an Actuator-On and an Actuator-Off call on
behalf of cycle 0. -/
theorem inert_cycle_counterexample150 :
    (followSchedule150 cfg150inert st150inert 300 3 (fun _ => (0, 0))).1.cycleOn 0 =
      (followSchedule150 cfg150inert st150inert 300 3 (fun _ => (0, 0))).1.cycleOff 0 ∧
    (0, true) ∈ (followSchedule150 cfg150inert st150inert 300 3 (fun _ => (0, 0))).2 ∧
    (0, false) ∈ (followSchedule150 cfg150inert st150inert 300 3 (fun _ => (0, 0))).2 := by
  decide

/-- Helper: value of the sunrise-relative off resolution in ordinary integer
arithmetic, below the 32-bit wrap. -/
theorem sunOffAfterSunrise_eq (sunR : Nat) (delta : Int)
    (h1 : -1440 ≤ delta) (h2 : delta ≤ 2147483647) (hR : sunR < 1440) :
    (sunOffAfterSunrise sunR delta : Int) = ((sunR : Int) + 1440 + delta) % 1440 := by
  unfold sunOffAfterSunrise U32 MINS_PER_DAY
  rw [Int.emod_eq_of_lt (a := (sunR : Int) + ((1440 : Nat) + delta))
    (b := 4294967296) (by omega) (by omega)]
  omega

/-- Helper: value of the sunset-relative on resolution in ordinary integer
arithmetic, below the 32-bit wrap. -/
theorem sunOnBeforeSunset_eq (sunS : Nat) (delta : Int)
    (h1 : delta ≤ 1440) (h2 : -2147483648 ≤ delta) (hS : sunS < 1440) :
    (sunOnBeforeSunset sunS delta : Int) = ((sunS : Int) + 1440 - delta) % 1440 := by
  unfold sunOnBeforeSunset U32 MINS_PER_DAY
  rw [Int.emod_eq_of_lt (a := (sunS : Int) + ((1440 : Nat) - delta))
    (b := 4294967296) (by omega) (by omega)]
  omega

/-- C3: the v1.6.0 recompute block resolves the off minute of an
off-after-sunrise cycle (cycle 4) to `(sunrise + 1440 + delta) mod 1440` and the
on minute of an on-before-sunset cycle (cycle 5) to
`(sunset + 1440 - delta) mod 1440`; in particular, sunrise 06:24 (minute 384)
with delta 0 resolves to off minute 384. -/
theorem sun_relative_resolution
    (cfg : config160) (sunR sunS : Nat)
    (hR : sunR < 1440) (hS : sunS < 1440)
    (hd0 : -1440 ≤ cfg.sunDelta 0) (hd0b : cfg.sunDelta 0 ≤ 2147483647)
    (hd1 : cfg.sunDelta 1 ≤ 1440) (hd1b : -2147483648 ≤ cfg.sunDelta 1) :
    ((resolveBase160 cfg sunR sunS 4).2 : Int) =
      ((sunR : Int) + 1440 + cfg.sunDelta 0) % 1440 ∧
    ((resolveBase160 cfg sunR sunS 5).1 : Int) =
      ((sunS : Int) + 1440 - cfg.sunDelta 1) % 1440 ∧
    sunOffAfterSunrise 384 0 = 384 := by
  refine ⟨?_, ?_, by decide⟩
  · have h4 : (resolveBase160 cfg sunR sunS 4).2 =
        sunOffAfterSunrise sunR (cfg.sunDelta 0) := rfl
    rw [h4, sunOffAfterSunrise_eq sunR (cfg.sunDelta 0) hd0 hd0b hR]
  · have h5 : (resolveBase160 cfg sunR sunS 5).1 =
        sunOnBeforeSunset sunS (cfg.sunDelta 1) := rfl
    rw [h5, sunOnBeforeSunset_eq sunS (cfg.sunDelta 1) hd1 hd1b hS]

/-- Witness for C3 at a concrete input: site with sunrise 06:24 (minute 384),
sunset 19:10 (minute 1150), both deltas 0. -/
def cfg160sunEx : config160 :=
  { enabled := true, cycleEnable := fun _ => true, cycleType := fun _ => .daily,
    cycleOnTime := fun _ => 480, cycleOffTime := fun _ => 780,
    sunTime := fun _ => 300, sunDelta := fun _ => 0, cycleFuzz := fun _ => 0 }

theorem sun_relative_resolution_witness :
    (384 < 1440 ∧ (1150 : Nat) < 1440 ∧ cfg160sunEx.sunDelta 0 = 0) ∧
    ((resolveBase160 cfg160sunEx 384 1150 4).2 : Int) =
      ((384 : Int) + 1440 + cfg160sunEx.sunDelta 0) % 1440 ∧
    (resolveBase160 cfg160sunEx 384 1150 4).2 = 384 := by
  refine ⟨by decide, ?_, by decide⟩
  exact (sun_relative_resolution cfg160sunEx 384 1150 (by decide) (by decide)
    (by decide) (by decide) (by decide) (by decide)).1

/-- Distance between two minutes of day on the 1440-minute clock circle. -/
def clockDist (a b : Nat) : Nat :=
  min ((a + MINS_PER_DAY - b) % MINS_PER_DAY) ((b + MINS_PER_DAY - a) % MINS_PER_DAY)

/-- C6: for a cycle with `cycleFuzz = F` not 0, every value of the random draw
(`random(2 * randMax)` returns a value below `2 * randMax`) moves the resolved
trigger at most `|F|` minutes from the base value: in the v1.6.0 recompute fuzz
the adjusted minute differs from the base by at most `|F|`, and in the v1.5.0
re-fuzz the new clock minute is within `|F|` minutes of the configured base on
the clock circle. -/
theorem fuzz_bounds (F : Int) (draw base dr2 base2 : Nat)
    (hF : F ≠ 0) (hdraw : (draw : Int) < 2 * randMaxOf F)
    (hFb : randMaxOf F ≤ 1440) (hbase2 : base2 < 1440)
    (hdr2 : (dr2 : Int) < 2 * randMaxOf F) :
    ((fuzz160 F draw base : Int) - base).natAbs ≤ F.natAbs ∧
    clockDist (fuzzClock150 base2 (randMaxOf F) dr2) base2 ≤ F.natAbs := by
  constructor
  · unfold fuzz160 randMaxOf
    unfold randMaxOf at hdraw
    split_ifs at hdraw ⊢ <;> simp only [] <;> split_ifs <;> omega
  · unfold fuzzClock150 clockDist randMaxOf MINS_PER_DAY U32
    unfold randMaxOf at hdraw hFb hdr2
    split_ifs at hFb hdr2 ⊢ with h
    · rw [Int.emod_eq_of_lt (a := (base2 : Int) + (dr2 : Int) - F + (1440 : Nat))
        (b := 4294967296) (by omega) (by omega)]
      omega
    · rw [Int.emod_eq_of_lt (a := (base2 : Int) + (dr2 : Int) - -F + (1440 : Nat))
        (b := 4294967296) (by omega) (by omega)]
      omega

/-- Witness for C6 at a concrete input: F = 10, v1.6.0 draw 19 on base 480 gives
489 (9 minutes away), v1.5.0 draw 0 on base 480 gives 470 (10 minutes away). -/
theorem fuzz_bounds_witness :
    ((10 : Int) ≠ 0 ∧ ((19 : Nat) : Int) < 2 * randMaxOf 10 ∧ randMaxOf 10 ≤ 1440 ∧
      (480 : Nat) < 1440 ∧ ((0 : Nat) : Int) < 2 * randMaxOf 10) ∧
    ((fuzz160 10 19 480 : Int) - 480).natAbs ≤ (10 : Int).natAbs ∧
    clockDist (fuzzClock150 480 (randMaxOf 10) 0) 480 ≤ (10 : Int).natAbs := by
  refine ⟨by decide, ?_, ?_⟩
  · exact (fuzz_bounds 10 19 480 0 480 (by decide) (by decide) (by decide)
      (by decide) (by decide)).1
  · exact (fuzz_bounds 10 19 480 0 480 (by decide) (by decide) (by decide)
      (by decide) (by decide)).2

/-- C9: for any site (abstracted as the pure day-indexed computation `compute`
and julian-day derivation `jday`) and any (year, yday), once the first call has
computed, repeated `getSunrise`/`getSolarNoon`/`getSunset` calls for the same day
leave the cache untouched and return the cached values, and those cached values
are exactly the fresh computation `compute` for that day.  The hypothesis
records that the initial (uninitialized) `julianDay` differs from the requested
day, so the first call really computes. -/
theorem obssite_memoization
    (jday : Int → Int → Int) (compute : Int → Int × Int × Int)
    (s0 : ObsSiteState) (year yday : Int)
    (h : s0.julianDay ≠ jday year yday) :
    (ObsSite_getSunrise jday compute s0 year yday).2 = (compute (jday year yday)).1 ∧
    ObsSite_getSunrise jday compute
        (ObsSite_getSunrise jday compute s0 year yday).1 year yday =
      ((ObsSite_getSunrise jday compute s0 year yday).1, (compute (jday year yday)).1) ∧
    ObsSite_getSolarNoon jday compute
        (ObsSite_getSunrise jday compute s0 year yday).1 year yday =
      ((ObsSite_getSunrise jday compute s0 year yday).1, (compute (jday year yday)).2.1) ∧
    ObsSite_getSunset jday compute
        (ObsSite_getSunrise jday compute s0 year yday).1 year yday =
      ((ObsSite_getSunrise jday compute s0 year yday).1, (compute (jday year yday)).2.2) := by
  have hne : ¬ jday year yday = s0.julianDay := fun hx => h hx.symm
  refine ⟨?_, ?_, ?_, ?_⟩ <;>
    simp [ObsSite_getSunrise, ObsSite_getSolarNoon, ObsSite_getSunset,
      ObsSite_calc, hne]

/-- Witness for C9 at a concrete site computation and day. -/
theorem obssite_memoization_witness :
    ((-1 : Int) ≠ (fun y d => y * 366 + d : Int → Int → Int) 123 200) ∧
    (ObsSite_getSunrise (fun y d => y * 366 + d) (fun j => (j, j + 1, j + 2))
      ⟨-1, 0, 0, 0⟩ 123 200).2 =
      ((fun j => (j, j + 1, j + 2) : Int → Int × Int × Int)
        ((fun y d => y * 366 + d : Int → Int → Int) 123 200)).1 := by
  refine ⟨by decide, ?_⟩
  exact (obssite_memoization (fun y d => y * 366 + d) (fun j => (j, j + 1, j + 2))
    ⟨-1, 0, 0, 0⟩ 123 200 (by decide)).1

/-- Concrete enabled v1.5.0 configuration with cycle 0 due at minute 480. -/
def cfg150due : config150 :=
  { enabled := true, cycleEnable := fun _ => true, cycleType := fun _ => .daily,
    cycleOnTime := fun _ => 480, cycleOffTime := fun _ => 780, cycleFuzz := fun _ => 0 }

/-- A wall-clock reading whose raw seconds are far below DAWN_OF_HISTORY (the
firmware's own validity criterion): the derived minute-of-day is bogus. -/
def crBogus : ClockReading := { secs := 0, minuteOfDay := 480, wday := 3 }

/-- Counterexample to C7 as stated: the follower performs no wall-clock-validity
precondition check - entered with a reading the firmware itself deems invalid
(`timeIsValid = false`) and the schedule enabled, it happily fires an Actuator-On
call against the bogus minute-of-day. -/
theorem no_time_check_counterexample :
    timeIsValid crBogus = false ∧
    (0, true) ∈ (followScheduleClock150 cfg150due st150Ex crBogus
      (fun _ => (0, 0))).2 := by
  decide

/-- C7 (amended): `followSchedule` itself performs no wall-clock-validity check -
its outcome is independent of the raw clock seconds - and the protection against
an unset clock lies outside it, in `loop()`: the follower is invoked only while
`running` is true (set at boot only after a successful NTP sync), so with
`running` false no Actuator call is ever made. -/
theorem no_valid_time_guard_is_in_loop
    (cfg : config150) (s : state150) (cr : ClockReading) (secs2 : Int)
    (wifi : Bool) (draws : Fin 3 → Nat × Nat) :
    loopFollowerStep150 false wifi cfg s cr draws = (s, []) ∧
    followScheduleClock150 cfg s { cr with secs := secs2 } draws =
      followScheduleClock150 cfg s cr draws := by
  constructor
  · simp [loopFollowerStep150]
  · rfl

/-- Helper: with the guard failed, the v1.5.0 events of cycle `c` are exactly the
tagged events of its per-cycle processing. -/
theorem fs150_mem_iff {cfg : config150} {s : state150} {m wday : Nat}
    {draws : Fin 3 → Nat × Nat}
    (hG : ¬ (!cfg.enabled || (decide (m = s.lastMinPastMidnight) && !s.scheduleUpdated)) = true)
    (c : Fin 3) (b : Bool) :
    ((c.val, b) ∈ (followSchedule150 cfg s m wday draws).2) ↔
      b ∈ (processCycle150 cfg c (onStart150 cfg s c) (offStart150 cfg s c) m
        (isWeekday wday) (draws c).1 (draws c).2).2.2 := by
  rw [followSchedule150, if_neg hG]
  simp only [List.mem_flatMap, List.mem_finRange, true_and, List.mem_map]
  constructor
  · rintro ⟨c', b', hb', heq⟩
    have hcv : c'.val = c.val := congrArg Prod.fst heq
    have hbv : b' = b := congrArg Prod.snd heq
    have hcc : c' = c := Fin.ext hcv
    rw [← hcc, ← hbv]
    exact hb'
  · intro hb
    exact ⟨c, b, hb, rfl⟩

/-- Helper: with the guard failed, the v1.5.0 post state holds each cycle's
processing results. -/
theorem fs150_post_cycle {cfg : config150} {s : state150} {m wday : Nat}
    {draws : Fin 3 → Nat × Nat}
    (hG : ¬ (!cfg.enabled || (decide (m = s.lastMinPastMidnight) && !s.scheduleUpdated)) = true)
    (c : Fin 3) :
    (followSchedule150 cfg s m wday draws).1.cycleOn c =
      (processCycle150 cfg c (onStart150 cfg s c) (offStart150 cfg s c) m
        (isWeekday wday) (draws c).1 (draws c).2).1 ∧
    (followSchedule150 cfg s m wday draws).1.cycleOff c =
      (processCycle150 cfg c (onStart150 cfg s c) (offStart150 cfg s c) m
        (isWeekday wday) (draws c).1 (draws c).2).2.1 := by
  rw [followSchedule150, if_neg hG]
  exact ⟨rfl, rfl⟩

/-- Helper: away from midnight a suspended (>= 1440) on time neither fires nor
changes in the v1.5.0 per-cycle processing. -/
theorem processCycle150_suspended_on (cfg : config150) (c : Fin 3)
    (onv offv m : Nat) (isWd : Bool) (dOn dOff : Nat)
    (hm0 : m ≠ 0) (hm : m < 1440) (hon : 1440 ≤ onv) :
    (processCycle150 cfg c onv offv m isWd dOn dOff).1 = onv ∧
    true ∉ (processCycle150 cfg c onv offv m isWd dOn dOff).2.2 := by
  unfold processCycle150 MINS_PER_DAY
  by_cases hact : (cfg.cycleEnable c && applicableToday (cfg.cycleType c) isWd) = true
  · rw [if_pos hact]
    have h1 : (m = 0 ∧ onv ≥ 1440) = False := eq_false (fun hx => hm0 hx.1)
    have hfire : (onv = m) = False := eq_false (fun hx => by omega)
    simp only [h1, if_false, hfire, false_and, List.nil_append]
    refine ⟨trivial, ?_⟩
    split_ifs <;> simp
  · rw [if_neg hact]
    exact ⟨rfl, by simp⟩

/-- Helper: away from midnight a suspended (>= 1440) off time neither fires nor
changes in the v1.5.0 per-cycle processing. -/
theorem processCycle150_suspended_off (cfg : config150) (c : Fin 3)
    (onv offv m : Nat) (isWd : Bool) (dOn dOff : Nat)
    (hm0 : m ≠ 0) (hm : m < 1440) (hoff : 1440 ≤ offv) :
    (processCycle150 cfg c onv offv m isWd dOn dOff).2.1 = offv ∧
    false ∉ (processCycle150 cfg c onv offv m isWd dOn dOff).2.2 := by
  unfold processCycle150 MINS_PER_DAY
  by_cases hact : (cfg.cycleEnable c && applicableToday (cfg.cycleType c) isWd) = true
  · rw [if_pos hact]
    have h1 : (m = 0 ∧ offv ≥ 1440) = False := eq_false (fun hx => hm0 hx.1)
    have hfire : (offv = m) = False := eq_false (fun hx => by omega)
    simp only [h1, if_false, hfire, false_and, List.append_nil]
    refine ⟨trivial, ?_⟩
    split_ifs <;> simp
  · rw [if_neg hact]
    exact ⟨rfl, by simp⟩

/-- Helper: at the midnight evaluation the v1.5.0 per-cycle processing folds a
suspended on time (1440 < onv < 2880) back below 1440 without firing it. -/
theorem processCycle150_fold_on (cfg : config150) (c : Fin 3)
    (onv offv : Nat) (isWd : Bool) (dOn dOff : Nat)
    (hact : (cfg.cycleEnable c && applicableToday (cfg.cycleType c) isWd) = true)
    (hon : 1440 ≤ onv) (hlt : onv < 2880) (hne : onv ≠ 1440) :
    (processCycle150 cfg c onv offv 0 isWd dOn dOff).1 = onv - 1440 ∧
    onv - 1440 < 1440 ∧
    true ∉ (processCycle150 cfg c onv offv 0 isWd dOn dOff).2.2 := by
  unfold processCycle150 MINS_PER_DAY
  rw [if_pos hact]
  have hfire : (onv - 1440 = 0) = False := eq_false (fun hx => by omega)
  simp only [ge_iff_le, eq_self_iff_true, true_and, eq_true hon, if_true, hfire,
    false_and, if_false, List.nil_append]
  refine ⟨by omega, ?_⟩
  split_ifs <;> simp

/-- Helper: at the midnight evaluation the v1.5.0 per-cycle processing folds a
suspended off time (1440 < offv < 2880) back below 1440 without firing it. -/
theorem processCycle150_fold_off (cfg : config150) (c : Fin 3)
    (onv offv : Nat) (isWd : Bool) (dOn dOff : Nat)
    (hact : (cfg.cycleEnable c && applicableToday (cfg.cycleType c) isWd) = true)
    (hoff : 1440 ≤ offv) (hlt : offv < 2880) (hne : offv ≠ 1440) :
    (processCycle150 cfg c onv offv 0 isWd dOn dOff).2.1 = offv - 1440 ∧
    offv - 1440 < 1440 ∧
    false ∉ (processCycle150 cfg c onv offv 0 isWd dOn dOff).2.2 := by
  unfold processCycle150 MINS_PER_DAY
  rw [if_pos hact]
  have hfire : (offv - 1440 = 0) = False := eq_false (fun hx => by omega)
  simp only [ge_iff_le, eq_self_iff_true, true_and, eq_true hoff, if_true, hfire,
    false_and, if_false, List.append_nil]
  refine ⟨by omega, ?_⟩
  split_ifs <;> simp

/-- C5: in the v1.5.0 follower a resolved trigger value of at least 1440
("suspended until tomorrow") never fires while the day lasts (any evaluation at a
minute other than 0 leaves it untouched and makes no call for that edge), and the
first enabled evaluation at minute-of-day 0 reduces it by 1440, making it an
ordinary sub-1440 trigger for the new day; it does not refire for the now-past
day (at that midnight evaluation it could fire only in the boundary case 1440,
i.e. exactly minute 0 of the new day). -/
theorem suspended_trigger_semantics
    (cfg : config150) (s : state150) (m wday : Nat) (draws : Fin 3 → Nat × Nat)
    (c : Fin 3) (hupd : s.scheduleUpdated = false) (hm : m < 1440) :
    (m ≠ 0 → 1440 ≤ s.cycleOn c →
      (c.val, true) ∉ (followSchedule150 cfg s m wday draws).2 ∧
      (followSchedule150 cfg s m wday draws).1.cycleOn c = s.cycleOn c) ∧
    (m ≠ 0 → 1440 ≤ s.cycleOff c →
      (c.val, false) ∉ (followSchedule150 cfg s m wday draws).2 ∧
      (followSchedule150 cfg s m wday draws).1.cycleOff c = s.cycleOff c) ∧
    (m = 0 → cfg.enabled = true → s.lastMinPastMidnight ≠ 0 →
      (cfg.cycleEnable c && applicableToday (cfg.cycleType c) (isWeekday wday)) = true →
      (1440 ≤ s.cycleOn c → s.cycleOn c < 2880 → s.cycleOn c ≠ 1440 →
        (followSchedule150 cfg s m wday draws).1.cycleOn c = s.cycleOn c - 1440 ∧
        (followSchedule150 cfg s m wday draws).1.cycleOn c < 1440 ∧
        (c.val, true) ∉ (followSchedule150 cfg s m wday draws).2) ∧
      (1440 ≤ s.cycleOff c → s.cycleOff c < 2880 → s.cycleOff c ≠ 1440 →
        (followSchedule150 cfg s m wday draws).1.cycleOff c = s.cycleOff c - 1440 ∧
        (followSchedule150 cfg s m wday draws).1.cycleOff c < 1440 ∧
        (c.val, false) ∉ (followSchedule150 cfg s m wday draws).2)) := by
  by_cases hG : (!cfg.enabled ||
      (decide (m = s.lastMinPastMidnight) && !s.scheduleUpdated)) = true
  · rw [fs150_guard_true hG]
    refine ⟨fun _ _ => ⟨by simp, rfl⟩, fun _ _ => ⟨by simp, rfl⟩, ?_⟩
    intro hm0 hen hlast _
    exfalso
    rw [hm0, hen, hupd] at hG
    simp at hG
    exact hlast hG.symm
  · have hons : onStart150 cfg s c = s.cycleOn c := by
      unfold onStart150
      rw [hupd]
      simp
    have hoffs : offStart150 cfg s c = s.cycleOff c := by
      unfold offStart150
      rw [hupd]
      simp
    refine ⟨?_, ?_, ?_⟩
    · intro hm0 hon
      rw [fs150_mem_iff hG c true, (fs150_post_cycle hG c).1, hons, hoffs]
      obtain ⟨hA, hB⟩ := processCycle150_suspended_on cfg c (s.cycleOn c)
        (s.cycleOff c) m (isWeekday wday) (draws c).1 (draws c).2 hm0 hm hon
      exact ⟨hB, hA⟩
    · intro hm0 hoff
      rw [fs150_mem_iff hG c false, (fs150_post_cycle hG c).2, hons, hoffs]
      obtain ⟨hA, hB⟩ := processCycle150_suspended_off cfg c (s.cycleOn c)
        (s.cycleOff c) m (isWeekday wday) (draws c).1 (draws c).2 hm0 hm hoff
      exact ⟨hB, hA⟩
    · intro hm0 _ _ hact
      subst hm0
      constructor
      · intro hon hlt hne
        rw [fs150_mem_iff hG c true, (fs150_post_cycle hG c).1, hons, hoffs]
        obtain ⟨hA, hB, hC⟩ := processCycle150_fold_on cfg c (s.cycleOn c)
          (s.cycleOff c) (isWeekday wday) (draws c).1 (draws c).2 hact hon hlt hne
        refine ⟨hA, ?_, hC⟩
        rw [hA]
        exact hB
      · intro hoff hlt hne
        rw [fs150_mem_iff hG c false, (fs150_post_cycle hG c).2, hons, hoffs]
        obtain ⟨hA, hB, hC⟩ := processCycle150_fold_off cfg c (s.cycleOn c)
          (s.cycleOff c) (isWeekday wday) (draws c).1 (draws c).2 hact hoff hlt hne
        refine ⟨hA, ?_, hC⟩
        rw [hA]
        exact hB

/-- Concrete suspended state for the C5 witness: cycle 0's resolved times are
1500 and 1600 (both suspended into tomorrow). -/
def st150susp : state150 :=
  { lastMinPastMidnight := 100, cycleOn := fun _ => 1500, cycleOff := fun _ => 1600,
    scheduleUpdated := false }

/-- Witness for C5 at a concrete input: at minute 101 the suspended on time 1500
neither fires nor changes. -/
theorem suspended_trigger_semantics_witness :
    (st150susp.scheduleUpdated = false ∧ (101 : Nat) < 1440 ∧ (101 : Nat) ≠ 0 ∧
      1440 ≤ st150susp.cycleOn 0) ∧
    ((0 : Nat), true) ∉
      (followSchedule150 cfg150due st150susp 101 3 (fun _ => (0, 0))).2 ∧
    (followSchedule150 cfg150due st150susp 101 3 (fun _ => (0, 0))).1.cycleOn 0 =
      st150susp.cycleOn 0 := by
  refine ⟨by decide, ?_, ?_⟩
  · exact ((suspended_trigger_semantics cfg150due st150susp 101 3 (fun _ => (0, 0)) 0
      rfl (by decide)).1 (by decide) (by decide)).1
  · exact ((suspended_trigger_semantics cfg150due st150susp 101 3 (fun _ => (0, 0)) 0
      rfl (by decide)).1 (by decide) (by decide)).2

/-- Concrete v1.6.0 configuration for C10: cycle 0 is a timed cycle with on time
23:55 (1435) and fuzz 10. -/
def cfg160fz : config160 :=
  { enabled := true, cycleEnable := fun _ => true, cycleType := fun _ => .daily,
    cycleOnTime := fun _ => 1435, cycleOffTime := fun _ => 600,
    sunTime := fun _ => 300, sunDelta := fun _ => 0, cycleFuzz := fun _ => 10 }

def st160fz : state160 :=
  { lastMinPastMidnight := 499, cycleOn := fun _ => 1435, cycleOff := fun _ => 600,
    sunrise := 384, sunset := 1150, scheduleUpdated := true }

/-- C10: the v1.6.0 recompute adds fuzz without reducing modulo 1440 - a concrete
recompute (base on time 1435, fuzz 10, draw 19) stores cycleOn = 1444 >= 1440 -
and such a stored value can never equal the sub-1440 current minute, so the edge
silently never fires and the value persists unchanged at every later evaluation
until the next recompute (a schedule edit or the midnight evaluation). -/
theorem fuzz_overflow_suppresses_edge160
    (cfg : config160) (s : state160) (m wday sunR sunS : Nat) (draws : Fin 8 → Nat)
    (c : Fin 8) (hm : m < 1440) (hupd : s.scheduleUpdated = false) (hm0 : m ≠ 0) :
    ((followSchedule160 cfg160fz st160fz 500 3 384 1150 (fun _ => 19)).1.cycleOn 0 =
      1444) ∧
    (1440 ≤ s.cycleOn c →
      (c.val, true) ∉ (followSchedule160 cfg s m wday sunR sunS draws).2 ∧
      (followSchedule160 cfg s m wday sunR sunS draws).1.cycleOn c = s.cycleOn c) ∧
    (1440 ≤ s.cycleOff c →
      (c.val, false) ∉ (followSchedule160 cfg s m wday sunR sunS draws).2 ∧
      (followSchedule160 cfg s m wday sunR sunS draws).1.cycleOff c = s.cycleOff c) := by
  have hnr : ¬ ((s.scheduleUpdated = true) ∨ m = 0) := by
    rw [hupd]
    simp [hm0]
  have houn : onUsed160 cfg s m sunR sunS draws c = s.cycleOn c := by
    unfold onUsed160
    rw [if_neg hnr]
  have hofn : offUsed160 cfg s m sunR sunS draws c = s.cycleOff c := by
    unfold offUsed160
    rw [if_neg hnr]
  refine ⟨by decide, ?_, ?_⟩
  · intro hon
    by_cases hG : (!cfg.enabled ||
        (decide (m = s.lastMinPastMidnight) && !s.scheduleUpdated)) = true
    · rw [fs160_guard_true hG]
      simp
    · rw [followSchedule160, if_neg hG]
      have hne : ¬ (onUsed160 cfg s m sunR sunS draws c = m) := by
        rw [houn]
        omega
      constructor
      · simp only [List.mem_flatMap, List.mem_finRange, true_and, not_exists]
        intro c'
        by_cases hcc : c' = c
        · subst hcc
          simp [hne]
        · have hv : c.val ≠ c'.val := fun hv => hcc (Fin.ext hv.symm)
          simp [hv]
      · exact houn
  · intro hoff
    by_cases hG : (!cfg.enabled ||
        (decide (m = s.lastMinPastMidnight) && !s.scheduleUpdated)) = true
    · rw [fs160_guard_true hG]
      simp
    · rw [followSchedule160, if_neg hG]
      have hne : ¬ (offUsed160 cfg s m sunR sunS draws c = m) := by
        rw [hofn]
        omega
      constructor
      · simp only [List.mem_flatMap, List.mem_finRange, true_and, not_exists]
        intro c'
        by_cases hcc : c' = c
        · subst hcc
          simp [hne]
        · have hv : c.val ≠ c'.val := fun hv => hcc (Fin.ext hv.symm)
          simp [hv]
      · exact hofn

/-- Concrete suspended v1.6.0 state for the C10 witness. -/
def st160susp : state160 :=
  { lastMinPastMidnight := 100, cycleOn := fun _ => 1444, cycleOff := fun _ => 600,
    sunrise := 384, sunset := 1150, scheduleUpdated := false }

/-- Witness for C10 at a concrete input: the stored cycleOn 1444 does not fire at
minute 101 and persists unchanged. -/
theorem fuzz_overflow_suppresses_edge160_witness :
    ((101 : Nat) < 1440 ∧ st160susp.scheduleUpdated = false ∧ (101 : Nat) ≠ 0 ∧
      1440 ≤ st160susp.cycleOn 0) ∧
    ((0 : Nat), true) ∉
      (followSchedule160 cfg160fz st160susp 101 3 384 1150 (fun _ => 19)).2 ∧
    (followSchedule160 cfg160fz st160susp 101 3 384 1150 (fun _ => 19)).1.cycleOn 0 =
      st160susp.cycleOn 0 := by
  refine ⟨by decide, ?_, ?_⟩
  · exact ((fuzz_overflow_suppresses_edge160 cfg160fz st160susp 101 3 384 1150
      (fun _ => 19) 0 (by decide) rfl (by decide)).2.1 (by decide)).1
  · exact ((fuzz_overflow_suppresses_edge160 cfg160fz st160susp 101 3 384 1150
      (fun _ => 19) 0 (by decide) rfl (by decide)).2.1 (by decide)).2

/-- Form field name carrying a cycle's enable checkbox. -/
def enField : Fin 3 → formDataName_t := fun c =>
  match c with
  | 0 => .fdS0en
  | 1 => .fdS1en
  | 2 => .fdS2en

/-- Form field name carrying a cycle's type selector. -/
def tyField : Fin 3 → formDataName_t := fun c =>
  match c with
  | 0 => .fdS0ty
  | 1 => .fdS1ty
  | 2 => .fdS2ty

/-- Form field name carrying a cycle's on time. -/
def onField : Fin 3 → formDataName_t := fun c =>
  match c with
  | 0 => .fdS0on
  | 1 => .fdS1on
  | 2 => .fdS2on

/-- Form field name carrying a cycle's off time. -/
def ofField : Fin 3 → formDataName_t := fun c =>
  match c with
  | 0 => .fdS0of
  | 1 => .fdS1of
  | 2 => .fdS2of

/-- Form field name carrying a cycle's fuzz amount. -/
def fzField : Fin 3 → formDataName_t := fun c =>
  match c with
  | 0 => .fdS0fz
  | 1 => .fdS1fz
  | 2 => .fdS2fz

/-- Helper: a predicate preserved by every step of a fold holds of its result. -/
theorem foldl_step_invariant {α β : Type} (P : β → Prop) (step : β → α → β)
    (l : List α) (init : β) (h0 : P init)
    (hstep : ∀ b a, a ∈ l → P b → P (step b a)) : P (l.foldl step init) := by
  induction l generalizing init with
  | nil => exact h0
  | cons a t ih =>
    exact ih (step init a) (hstep init a (by simp) h0)
      (fun b x hx hb => hstep b x (by simp [hx]) hb)

/-- Helper: no form field writes the master enable flag. -/
theorem applyFormField_enabled (b : config150) (i : formDataName_t) (v : String) :
    (applyFormField b i v).enabled = b.enabled := by
  cases i <;> rfl

/-- Helper: a form field other than cycle c's enable checkbox leaves
`cycleEnable c` unchanged. -/
theorem applyFormField_enable_frame (b : config150) (i : formDataName_t)
    (v : String) (c : Fin 3) (h : i ≠ enField c) :
    (applyFormField b i v).cycleEnable c = b.cycleEnable c := by
  fin_cases c <;> cases i <;>
    first
      | exact absurd rfl h
      | rfl

/-- Helper: a form field other than cycle c's type selector leaves
`cycleType c` unchanged. -/
theorem applyFormField_type_frame (b : config150) (i : formDataName_t)
    (v : String) (c : Fin 3) (h : i ≠ tyField c) :
    (applyFormField b i v).cycleType c = b.cycleType c := by
  fin_cases c <;> cases i <;>
    first
      | exact absurd rfl h
      | rfl

/-- Helper: a form field other than cycle c's on time leaves `cycleOnTime c`
unchanged. -/
theorem applyFormField_on_frame (b : config150) (i : formDataName_t)
    (v : String) (c : Fin 3) (h : i ≠ onField c) :
    (applyFormField b i v).cycleOnTime c = b.cycleOnTime c := by
  fin_cases c <;> cases i <;>
    first
      | exact absurd rfl h
      | rfl

/-- Helper: a form field other than cycle c's off time leaves `cycleOffTime c`
unchanged. -/
theorem applyFormField_off_frame (b : config150) (i : formDataName_t)
    (v : String) (c : Fin 3) (h : i ≠ ofField c) :
    (applyFormField b i v).cycleOffTime c = b.cycleOffTime c := by
  fin_cases c <;> cases i <;>
    first
      | exact absurd rfl h
      | rfl

/-- Helper: a form field other than cycle c's fuzz leaves `cycleFuzz c`
unchanged. -/
theorem applyFormField_fuzz_frame (b : config150) (i : formDataName_t)
    (v : String) (c : Fin 3) (h : i ≠ fzField c) :
    (applyFormField b i v).cycleFuzz c = b.cycleFuzz c := by
  fin_cases c <;> cases i <;>
    first
      | exact absurd rfl h
      | rfl

/-- C8: processing a schedule-update form submission first resets every cycle's
enable flag to false and then overlays only the fields present in the
submission: the master enable flag is untouched, an absent enable checkbox
leaves the cycle disabled, and every other per-cycle field whose form field is
absent (empty `getFormDatum` result) keeps its previous value. -/
theorem form_update_reset_and_frame (cfg : config150)
    (form : formDataName_t → String) (c : Fin 3) :
    (handlePostSchedUpdate150 cfg form).enabled = cfg.enabled ∧
    ((form (enField c)).length = 0 →
      (handlePostSchedUpdate150 cfg form).cycleEnable c = false) ∧
    ((form (tyField c)).length = 0 →
      (handlePostSchedUpdate150 cfg form).cycleType c = cfg.cycleType c) ∧
    ((form (onField c)).length = 0 →
      (handlePostSchedUpdate150 cfg form).cycleOnTime c = cfg.cycleOnTime c) ∧
    ((form (ofField c)).length = 0 →
      (handlePostSchedUpdate150 cfg form).cycleOffTime c = cfg.cycleOffTime c) ∧
    ((form (fzField c)).length = 0 →
      (handlePostSchedUpdate150 cfg form).cycleFuzz c = cfg.cycleFuzz c) := by
  unfold handlePostSchedUpdate150
  refine ⟨?_, ?_, ?_, ?_, ?_, ?_⟩
  · refine foldl_step_invariant (fun b : config150 => b.enabled = cfg.enabled)
      _ _ _ rfl ?_
    intro b i _ hb
    by_cases hl : (form i).length ≠ 0
    · rw [if_pos hl, applyFormField_enabled]
      exact hb
    · rw [if_neg hl]
      exact hb
  · intro habs
    refine foldl_step_invariant (fun b : config150 => b.cycleEnable c = false)
      _ _ _ rfl ?_
    intro b i _ hb
    by_cases hl : (form i).length ≠ 0
    · rw [if_pos hl]
      have hic : i ≠ enField c := fun hx => hl (hx ▸ habs)
      rw [applyFormField_enable_frame b i (form i) c hic]
      exact hb
    · rw [if_neg hl]
      exact hb
  · intro habs
    refine foldl_step_invariant (fun b : config150 => b.cycleType c = cfg.cycleType c)
      _ _ _ rfl ?_
    intro b i _ hb
    by_cases hl : (form i).length ≠ 0
    · rw [if_pos hl]
      have hic : i ≠ tyField c := fun hx => hl (hx ▸ habs)
      rw [applyFormField_type_frame b i (form i) c hic]
      exact hb
    · rw [if_neg hl]
      exact hb
  · intro habs
    refine foldl_step_invariant (fun b : config150 => b.cycleOnTime c = cfg.cycleOnTime c)
      _ _ _ rfl ?_
    intro b i _ hb
    by_cases hl : (form i).length ≠ 0
    · rw [if_pos hl]
      have hic : i ≠ onField c := fun hx => hl (hx ▸ habs)
      rw [applyFormField_on_frame b i (form i) c hic]
      exact hb
    · rw [if_neg hl]
      exact hb
  · intro habs
    refine foldl_step_invariant (fun b : config150 => b.cycleOffTime c = cfg.cycleOffTime c)
      _ _ _ rfl ?_
    intro b i _ hb
    by_cases hl : (form i).length ≠ 0
    · rw [if_pos hl]
      have hic : i ≠ ofField c := fun hx => hl (hx ▸ habs)
      rw [applyFormField_off_frame b i (form i) c hic]
      exact hb
    · rw [if_neg hl]
      exact hb
  · intro habs
    refine foldl_step_invariant (fun b : config150 => b.cycleFuzz c = cfg.cycleFuzz c)
      _ _ _ rfl ?_
    intro b i _ hb
    by_cases hl : (form i).length ≠ 0
    · rw [if_pos hl]
      have hic : i ≠ fzField c := fun hx => hl (hx ▸ habs)
      rw [applyFormField_fuzz_frame b i (form i) c hic]
      exact hb
    · rw [if_neg hl]
      exact hb

/-- A concrete sparse form submission: only cycle 1's enable checkbox and cycle
0's on time are present. -/
def formEx : formDataName_t → String := fun i =>
  match i with
  | .fdS1en => "on"
  | .fdS0on => "09:30"
  | _ => ""

/-- Witness for C8 at a concrete input. -/
theorem form_update_reset_and_frame_witness :
    ((formEx (enField 0)).length = 0 ∧ (formEx (tyField 0)).length = 0 ∧
      (formEx (onField 1)).length = 0 ∧ (formEx (ofField 0)).length = 0 ∧
      (formEx (fzField 0)).length = 0) ∧
    (handlePostSchedUpdate150 cfg150due formEx).enabled = cfg150due.enabled ∧
    (handlePostSchedUpdate150 cfg150due formEx).cycleEnable 0 = false ∧
    (handlePostSchedUpdate150 cfg150due formEx).cycleType 0 = cfg150due.cycleType 0 ∧
    (handlePostSchedUpdate150 cfg150due formEx).cycleOnTime 1 = cfg150due.cycleOnTime 1 ∧
    (handlePostSchedUpdate150 cfg150due formEx).cycleOffTime 0 = cfg150due.cycleOffTime 0 ∧
    (handlePostSchedUpdate150 cfg150due formEx).cycleFuzz 0 = cfg150due.cycleFuzz 0 := by
  refine ⟨by decide, (form_update_reset_and_frame cfg150due formEx 0).1,
    (form_update_reset_and_frame cfg150due formEx 0).2.1 (by decide),
    (form_update_reset_and_frame cfg150due formEx 0).2.2.1 (by decide),
    (form_update_reset_and_frame cfg150due formEx 1).2.2.2.1 (by decide),
    (form_update_reset_and_frame cfg150due formEx 0).2.2.2.2.1 (by decide),
    (form_update_reset_and_frame cfg150due formEx 0).2.2.2.2.2 (by decide)⟩
